import Mathlib

/-!
Shallow embedding of the farm-management simulation in src/main.py, and
theorems about its crop growth, livestock feeding, inventory accounting,
grid movement and main-loop behaviour.  Python dicts are modelled as
insertion-ordered association lists, Python integers as Int, and the
interactive main loop as a function over a script of already-validated
menu choices (the prompting collaborator only ever returns valid indices).
-/

/-- Association-list model of a Python dict: lookup returns the first binding. -/
def dget {α β : Type} [DecidableEq α] : List (α × β) → α → Option β
  | [], _ => none
  | p :: rest, k => if p.1 = k then some p.2 else dget rest k

/-- Python dict.get with a default value. -/
def dgetD {α β : Type} [DecidableEq α] (d : List (α × β)) (k : α) (v : β) : β :=
  (dget d k).getD v

/-- Python dict assignment: replace the first binding for the key, or append. -/
def dset {α β : Type} [DecidableEq α] : List (α × β) → α → β → List (α × β)
  | [], k, v => [(k, v)]
  | p :: rest, k, v => if p.1 = k then (k, v) :: rest else p :: dset rest k v

theorem dget_dset_self {α β : Type} [DecidableEq α] (d : List (α × β)) (k : α) (v : β) :
    dget (dset d k v) k = some v := by
  induction d with
  | nil => simp [dset, dget]
  | cons p rest ih =>
    by_cases h : p.1 = k
    · simp [dset, dget, h]
    · simp [dset, dget, h, ih]

theorem dget_dset_ne {α β : Type} [DecidableEq α] (d : List (α × β)) (k q : α) (v : β)
    (h : q ≠ k) : dget (dset d k v) q = dget d q := by
  induction d with
  | nil => simp [dset, dget, Ne.symm h]
  | cons p rest ih =>
    by_cases hp : p.1 = k
    · simp [dset, dget, hp, Ne.symm h]
    · simp [dset, dget, hp, ih]

theorem dgetD_dset_self {α β : Type} [DecidableEq α] (d : List (α × β)) (k : α) (v w : β) :
    dgetD (dset d k v) k w = v := by
  simp [dgetD, dget_dset_self]

theorem dgetD_dset_ne {α β : Type} [DecidableEq α] (d : List (α × β)) (k q : α) (v w : β)
    (h : q ≠ k) : dgetD (dset d k v) q w = dgetD d q w := by
  simp [dgetD, dget_dset_ne d k q v h]

/-- CropType from src/main.py: immutable name plus growth duration. -/
structure CropType where
  name : String
  grow_days : Int
deriving DecidableEq

/-- LivestockType from src/main.py: immutable name plus produced item. -/
structure LivestockType where
  name : String
  product : String
deriving DecidableEq

/-- FieldPlot from src/main.py: optional crop and optional planting day. -/
structure FieldPlot where
  crop : Option CropType := none
  planted_day : Option Int := none
deriving DecidableEq

/-- FieldPlot.is_ready: false if crop or planted_day is missing, otherwise
elapsed days at least the growth duration. -/
def FieldPlot.is_ready (p : FieldPlot) (current_day : Int) : Bool :=
  match p.crop, p.planted_day with
  | some c, some d => decide (current_day - d ≥ c.grow_days)
  | _, _ => false

/-- Livestock from src/main.py: a type plus a hunger counter. -/
structure Livestock where
  livestock_type : LivestockType
  hunger : Int := 0
deriving DecidableEq

/-- Livestock.feed: resets hunger to 0 and returns the produced item. -/
def Livestock.feed (a : Livestock) : String × Livestock :=
  (a.livestock_type.product, { a with hunger := 0 })

/-- Livestock.pass_day: hunger increases by one. -/
def Livestock.pass_day (a : Livestock) : Livestock :=
  { a with hunger := a.hunger + 1 }

def CROPS : List CropType :=
  [{ name := "にんじん", grow_days := 2 },
   { name := "じゃがいも", grow_days := 3 },
   { name := "かぼちゃ", grow_days := 4 }]

def LIVESTOCK_TYPES : List LivestockType :=
  [{ name := "ニワトリ", product := "たまご" },
   { name := "ウシ", product := "ミルク" }]

def GRID_WIDTH : Int := 8

def GRID_HEIGHT : Int := 6

def FIELD_POSITIONS : List (Int × Int) := [(2, 1), (3, 1), (2, 2), (3, 2)]

def BARN_POSITION : Int × Int := (6, 4)

/-- GameState from src/main.py (the fields mutated by the simulation). -/
structure GameState where
  day : Int
  day_limit : Int
  actions_per_day : Int
  player_pos : Int × Int
  fields : List ((Int × Int) × FieldPlot)
  livestock : List Livestock
  inventory : List (String × Int)
  goal : List (String × Int)
deriving DecidableEq

/-- GameState.goal_met: every goal threshold is reached by the inventory,
missing inventory items counting as 0. -/
def GameState.goal_met (s : GameState) : Bool :=
  s.goal.all (fun p => decide (dgetD s.inventory p.1 0 ≥ p.2))

/-- The state built by GameState.__init__. -/
def init_state : GameState :=
  { day := 1
    day_limit := 10
    actions_per_day := 3
    player_pos := (0, 0)
    fields := FIELD_POSITIONS.map (fun pos => (pos, { crop := none, planted_day := none }))
    livestock :=
      [{ livestock_type := LIVESTOCK_TYPES.get ⟨0, by decide⟩, hunger := 0 },
       { livestock_type := LIVESTOCK_TYPES.get ⟨0, by decide⟩, hunger := 0 },
       { livestock_type := LIVESTOCK_TYPES.get ⟨1, by decide⟩, hunger := 0 }]
    inventory :=
      [("たまご", 0), ("ミルク", 0), ("にんじん", 0), ("じゃがいも", 0), ("かぼちゃ", 0),
       ("エサ", 6)]
    goal := [("にんじん", 5), ("じゃがいも", 3), ("たまご", 4), ("ミルク", 2)] }

/-- The remaining-days expression shown for a growing plot by print_status
and interact: grow_days - (current day - planted day). -/
def remaining_days (c : CropType) (planted current : Int) : Int :=
  c.grow_days - (current - planted)

/-- The four validated movement inputs of move_player. -/
inductive MoveDir
  | W
  | A
  | S
  | D
deriving DecidableEq

/-- The directions dict of move_player. -/
def direction_vec : MoveDir → Int × Int
  | .W => (0, -1)
  | .A => (-1, 0)
  | .S => (0, 1)
  | .D => (1, 0)

/-- move_player: add the direction vector and clamp each axis to the grid. -/
def move_player (pos : Int × Int) (d : MoveDir) : Int × Int :=
  (max 0 (min (GRID_WIDTH - 1) (pos.1 + (direction_vec d).1)),
   max 0 (min (GRID_HEIGHT - 1) (pos.2 + (direction_vec d).2)))

/-- plant_crop: overwrite the plot with the chosen crop planted today.
prompt_choice only returns valid indices, so the choice is a Fin 3. -/
def plant_crop (day : Int) (crop_index : Fin 3) (plot : FieldPlot) : FieldPlot :=
  { plot with crop := some (CROPS.get crop_index), planted_day := some day }

/-- harvest: credit the crop by one and clear the plot.  The source reads
plot.crop.name with no guard, so an empty plot faults; that is the none case. -/
def harvest (inventory : List (String × Int)) (plot : FieldPlot) :
    Option (List (String × Int) × FieldPlot) :=
  match plot.crop with
  | none => none
  | some c =>
      some (dset inventory c.name (dgetD inventory c.name 0 + 1),
            { crop := none, planted_day := none })

/-- The for-loop of feed_animals: walk the livestock in order; while feed
stock is positive, feed the unit, credit its product, decrement feed stock.
Returns the final inventory, the final livestock list and the fed count. -/
def feed_loop : List (String × Int) → List Livestock →
    List (String × Int) × List Livestock × Nat
  | inv, [] => (inv, [], 0)
  | inv, a :: rest =>
    if dgetD inv "エサ" 0 ≤ 0 then (inv, a :: rest, 0)
    else
      let fr := a.feed
      let inv1 := dset inv fr.1 (dgetD inv fr.1 0 + 1)
      let inv2 := dset inv1 "エサ" (dgetD inv1 "エサ" 0 - 1)
      let r := feed_loop inv2 rest
      (r.1, fr.2 :: r.2.1, r.2.2 + 1)

/-- feed_animals: refuse outright when no feed stock, otherwise run the loop. -/
def feed_animals (s : GameState) : GameState :=
  if dgetD s.inventory "エサ" 0 ≤ 0 then s
  else
    { s with inventory := (feed_loop s.inventory s.livestock).1
             livestock := (feed_loop s.inventory s.livestock).2.1 }

/-- interact: on a field plot, plant (empty) / harvest (ready) / report
growth (otherwise); at the barn, feed; elsewhere, nothing. -/
def interact (s : GameState) (crop_index : Fin 3) : GameState :=
  match dget s.fields s.player_pos with
  | some plot =>
    match plot.crop with
    | none =>
        { s with fields := dset s.fields s.player_pos (plant_crop s.day crop_index plot) }
    | some _ =>
      if plot.is_ready s.day then
        match harvest s.inventory plot with
        | some r => { s with inventory := r.1, fields := dset s.fields s.player_pos r.2 }
        | none => s
      else s
  | none =>
    if s.player_pos = BARN_POSITION then feed_animals s else s

/-- end_day: every unit's hunger ticks up and the day advances. -/
def end_day (s : GameState) : GameState :=
  { s with livestock := s.livestock.map Livestock.pass_day, day := s.day + 1 }

/-- One validated top-level menu choice of main. -/
inductive PlayerAction
  | move (d : MoveDir)
  | interact (crop_index : Fin 3)
  | status
  | endActions
deriving DecidableEq

/-- One iteration of the inner action loop of main: the state change and the
new remaining-actions counter. -/
def do_action (s : GameState) (actions_left : Int) : PlayerAction → GameState × Int
  | .move d => ({ s with player_pos := move_player s.player_pos d }, actions_left - 1)
  | .interact c => (interact s c, actions_left - 1)
  | .status => (s, actions_left)
  | .endActions => (s, 0)

/-- Result of running the actions of one day against a script of choices. -/
inductive DayRes
  | succeeded (s : GameState) (rest : List PlayerAction)
  | dayOver (s : GameState) (rest : List PlayerAction)
  | blocked (s : GameState)
deriving DecidableEq

/-- The inner while-loop of main: run actions until the counter reaches 0,
returning early the moment the goal is met after an action.  blocked means
the script ran out while the program would still be prompting. -/
def runDayActions : GameState → Int → List PlayerAction → DayRes
  | s, al, [] => if al ≤ 0 then .dayOver s [] else .blocked s
  | s, al, a :: rest =>
    if al ≤ 0 then .dayOver s (a :: rest)
    else if (do_action s al a).1.goal_met then .succeeded (do_action s al a).1 rest
    else runDayActions (do_action s al a).1 (do_action s al a).2 rest

/-- Terminal outcomes of main. -/
inductive GameRes
  | successMid (s : GameState)
  | successEnd (s : GameState)
  | failure (s : GameState)
  | blocked (s : GameState)
deriving DecidableEq

/-- The outer while-loop of main, with fuel bounding the number of day
iterations (the loop itself terminates because the day grows each round). -/
def runMain : Nat → GameState → List PlayerAction → GameRes
  | 0, s, _ => .blocked s
  | fuel + 1, s, script =>
    if s.day ≤ s.day_limit then
      match runDayActions s s.actions_per_day script with
      | .succeeded s2 _ => .successMid s2
      | .dayOver s2 rest => runMain fuel (end_day s2) rest
      | .blocked s2 => .blocked s2
    else if s.goal_met then .successEnd s else .failure s

/-- C4: is_ready is false on an empty plot, and on an occupied plot it is
true exactly when current_day - planted_day has reached grow_days; hence a
crop planted on day d with growth g is unready strictly before d + g and
ready from d + g on. -/
theorem C4_is_ready (c : CropType) (pd : Option Int) (d current : Int) :
    (FieldPlot.mk none pd).is_ready current = false ∧
    ((FieldPlot.mk (some c) (some d)).is_ready current = true ↔ current - d ≥ c.grow_days) ∧
    (current < d + c.grow_days → (FieldPlot.mk (some c) (some d)).is_ready current = false) ∧
    (d + c.grow_days ≤ current → (FieldPlot.mk (some c) (some d)).is_ready current = true) := by
  refine ⟨?_, ?_, ?_, ?_⟩
  · cases pd <;> rfl
  · simp [FieldPlot.is_ready]
  · intro hlt
    simp only [FieldPlot.is_ready, decide_eq_false_iff_not]
    omega
  · intro hge
    simp only [FieldPlot.is_ready, decide_eq_true_eq]
    omega

theorem C4_is_ready_witness :
    (FieldPlot.mk (some { name := "にんじん", grow_days := 2 }) (some 1)).is_ready 3 = true :=
  (C4_is_ready { name := "にんじん", grow_days := 2 } none 1 3).2.2.2 (by decide)

/-- C5: on an occupied, not-yet-ready plot the displayed remaining-days value
is grow_days - (current - planted), is at least 1, and drops by exactly 1 as
one day elapses. -/
theorem C5_remaining_days (c : CropType) (d current : Int)
    (h : (FieldPlot.mk (some c) (some d)).is_ready current = false) :
    remaining_days c d current = c.grow_days - (current - d) ∧
    1 ≤ remaining_days c d current ∧
    remaining_days c d (current + 1) = remaining_days c d current - 1 := by
  have hx : ¬(current - d ≥ c.grow_days) := by
    simpa [FieldPlot.is_ready] using h
  refine ⟨rfl, ?_, ?_⟩ <;> unfold remaining_days <;> omega

theorem C5_remaining_days_witness :
    1 ≤ remaining_days { name := "にんじん", grow_days := 2 } 1 2 :=
  (C5_remaining_days { name := "にんじん", grow_days := 2 } 1 2 (by decide)).2.1

/-- C6: goal_met is true exactly when every goal threshold is reached by the
inventory (absent items counting as 0), and the result only depends on the
inventory counts of the goal items. -/
theorem C6_goal_met (s t : GameState) :
    (s.goal_met = true ↔ ∀ p ∈ s.goal, dgetD s.inventory p.1 0 ≥ p.2) ∧
    (t.goal = s.goal → (∀ p ∈ s.goal, dgetD t.inventory p.1 0 = dgetD s.inventory p.1 0) →
      t.goal_met = s.goal_met) := by
  constructor
  · simp [GameState.goal_met, List.all_eq_true]
  · intro hg hi
    have key : ∀ l : List (String × Int),
        (∀ p ∈ l, dgetD t.inventory p.1 0 = dgetD s.inventory p.1 0) →
        (l.all (fun p => decide (dgetD t.inventory p.1 0 ≥ p.2)) =
         l.all (fun p => decide (dgetD s.inventory p.1 0 ≥ p.2))) := by
      intro l
      induction l with
      | nil => intro _; rfl
      | cons p rest ih =>
        intro hl
        have h1 := hl p (List.mem_cons_self p rest)
        have h2 := ih (fun q hq => hl q (List.mem_cons_of_mem p hq))
        simp [List.all_cons, h1, h2]
    unfold GameState.goal_met
    rw [hg]
    exact key s.goal hi

theorem C6_goal_met_witness :
    ({ init_state with inventory := dset init_state.inventory "木材" 1 } : GameState).goal_met =
      init_state.goal_met :=
  (C6_goal_met init_state { init_state with inventory := dset init_state.inventory "木材" 1 }).2
    rfl (by decide)

/-- C7: from any in-grid position, a move adds the direction vector with each
axis clamped to the grid, the result always stays in the grid, and in
particular five Left moves from the origin stay at the origin. -/
theorem C7_move_player (pos : Int × Int) (d : MoveDir)
    (h : 0 ≤ pos.1 ∧ pos.1 ≤ GRID_WIDTH - 1 ∧ 0 ≤ pos.2 ∧ pos.2 ≤ GRID_HEIGHT - 1) :
    move_player pos d =
      (max 0 (min (GRID_WIDTH - 1) (pos.1 + (direction_vec d).1)),
       max 0 (min (GRID_HEIGHT - 1) (pos.2 + (direction_vec d).2))) ∧
    0 ≤ (move_player pos d).1 ∧ (move_player pos d).1 ≤ GRID_WIDTH - 1 ∧
    0 ≤ (move_player pos d).2 ∧ (move_player pos d).2 ≤ GRID_HEIGHT - 1 ∧
    move_player (move_player (move_player (move_player
      (move_player ((0 : Int), (0 : Int)) .A) .A) .A) .A) .A = ((0 : Int), (0 : Int)) := by
  refine ⟨rfl, ?_, ?_, ?_, ?_, by decide⟩ <;>
    simp only [move_player, GRID_WIDTH, GRID_HEIGHT] <;> omega

theorem C7_move_player_witness :
    move_player (move_player (move_player (move_player
      (move_player ((0 : Int), (0 : Int)) .A) .A) .A) .A) .A = ((0 : Int), (0 : Int)) :=
  (C7_move_player ((0 : Int), (0 : Int)) .A (by decide)).2.2.2.2.2

/-- A state at the barn with the feed stock forced to zero. -/
def sFeed0 : GameState :=
  { init_state with
    player_pos := BARN_POSITION
    inventory := dset init_state.inventory "エサ" 0 }

/-- A state standing on field plot (2,1), which holds a carrot planted on
day 1 and ready on the current day 3. -/
def sReady : GameState :=
  { init_state with
    day := 3
    player_pos := (2, 1)
    fields := dset init_state.fields (2, 1)
      { crop := some { name := "にんじん", grow_days := 2 }, planted_day := some 1 } }

/-- C1 counterexample: the harvest function itself has no readiness guard.
On a plot whose carrot was planted today (not ready on day 1) it does not
fail: it credits the crop and empties the plot, changing the inventory. -/
theorem C1_counterexample :
    (FieldPlot.mk (some { name := "にんじん", grow_days := 2 }) (some 1)).is_ready 1 = false ∧
    harvest init_state.inventory
        (FieldPlot.mk (some { name := "にんじん", grow_days := 2 }) (some 1)) =
      some (dset init_state.inventory "にんじん" 1, { crop := none, planted_day := none }) ∧
    dgetD (dset init_state.inventory "にんじん" 1) "にんじん" 0 ≠
      dgetD init_state.inventory "にんじん" 0 := by
  decide

/-- C1 (amended): the readiness guard lives in interact, not in harvest.
Through interact, a harvest attempt on an occupied not-yet-ready plot is
refused non-fatally and leaves the whole state unchanged; the bare harvest
function faults (none) on an empty plot; and once a harvest empties the
plot, a second interact there does not credit the crop again: it enters the
planting flow instead. -/
theorem C1_harvest_guard (s : GameState) (plot : FieldPlot) (c c2 : Fin 3)
    (hf : dget s.fields s.player_pos = some plot) :
    (plot.crop ≠ none → plot.is_ready s.day = false → interact s c = s) ∧
    (∀ inv, harvest inv { crop := none, planted_day := none } = none) ∧
    (plot.is_ready s.day = true →
      dget (interact s c).fields s.player_pos = some { crop := none, planted_day := none } ∧
      (interact (interact s c) c2).inventory = (interact s c).inventory ∧
      dget (interact (interact s c) c2).fields s.player_pos =
        some { crop := some (CROPS.get c2), planted_day := some s.day }) := by
  refine ⟨?_, fun inv => rfl, ?_⟩
  · intro hcrop hnr
    cases hc : plot.crop with
    | none => exact absurd hc hcrop
    | some cr => simp [interact, hf, hc, hnr]
  · intro hr
    obtain ⟨cr, hc⟩ : ∃ cr, plot.crop = some cr := by
      cases hc : plot.crop with
      | none => cases hpd : plot.planted_day <;> simp [FieldPlot.is_ready, hc, hpd] at hr
      | some cr => exact ⟨cr, rfl⟩
    have h1 : interact s c =
        { s with
          inventory := dset s.inventory cr.name (dgetD s.inventory cr.name 0 + 1)
          fields := dset s.fields s.player_pos { crop := none, planted_day := none } } := by
      simp [interact, hf, hc, hr, harvest]
    refine ⟨?_, ?_, ?_⟩
    · rw [h1]
      exact dget_dset_self s.fields s.player_pos _
    · rw [h1]
      simp [interact, dget_dset_self, plant_crop]
    · rw [h1]
      simp [interact, dget_dset_self, plant_crop, dget_dset_self]

theorem C1_harvest_guard_witness :
    dget (interact sReady 0).fields sReady.player_pos =
      some { crop := none, planted_day := none } ∧
    (interact (interact sReady 0) 1).inventory = (interact sReady 0).inventory :=
  have h := (C1_harvest_guard sReady
      { crop := some { name := "にんじん", grow_days := 2 }, planted_day := some 1 } 0 1
      (by decide)).2.2 (by decide)
  ⟨h.1, h.2.1⟩

/-- C2 counterexample: at the barn with zero feed stock the feed attempt is
refused with the state untouched, but the remaining-actions counter still
drops from 3 to 2 (main decrements it for every interact action), so the
refusal is not non-consuming. -/
theorem C2_counterexample :
    dgetD sFeed0.inventory "エサ" 0 = 0 ∧
    (do_action sFeed0 3 (.interact 0)).1 = sFeed0 ∧
    (do_action sFeed0 3 (.interact 0)).2 = 2 ∧
    (2 : Int) ≠ 3 := by
  decide

/-- C2 (amended): with zero feed stock, a feed attempt at the barn leaves
the entire game state (inventory and every unit's hunger included)
unchanged, but it still consumes an action slot: the counter drops by one as
for any interact action. -/
theorem C2_feed_refusal (s : GameState) (al : Int) (c : Fin 3)
    (hpos : s.player_pos = BARN_POSITION)
    (hnf : dget s.fields s.player_pos = none)
    (hfeed : dgetD s.inventory "エサ" 0 = 0) :
    do_action s al (.interact c) = (s, al - 1) := by
  rw [hpos] at hnf
  simp [do_action, interact, hnf, hpos, feed_animals, hfeed]

theorem C2_feed_refusal_witness :
    do_action sFeed0 3 (.interact 0) = (sFeed0, 3 - 1) :=
  C2_feed_refusal sFeed0 3 0 rfl (by decide) (by decide)

/-- C9: whenever interact reaches its harvest call (a plot sits at the
player's position and is ready today), the plot has a crop and a planting
day, so harvest cannot hit its unguarded empty-plot fault along the
interact path. -/
theorem C9_harvest_reachable (s : GameState) (plot : FieldPlot)
    (hf : dget s.fields s.player_pos = some plot)
    (hr : plot.is_ready s.day = true) :
    plot.crop ≠ none ∧ plot.planted_day ≠ none ∧ harvest s.inventory plot ≠ none := by
  cases hc : plot.crop with
  | none => cases hpd : plot.planted_day <;> simp [FieldPlot.is_ready, hc, hpd] at hr
  | some cr =>
    cases hpd : plot.planted_day with
    | none => simp [FieldPlot.is_ready, hc, hpd] at hr
    | some d0 => exact ⟨by simp [hc], by simp [hpd], by simp [harvest, hc]⟩

theorem C9_harvest_reachable_witness :
    harvest sReady.inventory
      { crop := some { name := "にんじん", grow_days := 2 }, planted_day := some 1 } ≠ none :=
  (C9_harvest_reachable sReady
      { crop := some { name := "にんじん", grow_days := 2 }, planted_day := some 1 }
      (by decide) (by decide)).2.2

theorem feed_loop_spec :
    ∀ (animals : List Livestock) (inv : List (String × Int)),
      0 ≤ dgetD inv "エサ" 0 →
      (∀ a ∈ animals, a.livestock_type.product ≠ "エサ") →
      (feed_loop inv animals).2.2 = min (dgetD inv "エサ" 0).toNat animals.length ∧
      dgetD (feed_loop inv animals).1 "エサ" 0 =
        dgetD inv "エサ" 0 - (feed_loop inv animals).2.2 ∧
      (feed_loop inv animals).2.1 =
        (animals.take (feed_loop inv animals).2.2).map (fun a => { a with hunger := 0 }) ++
          animals.drop (feed_loop inv animals).2.2 ∧
      ∀ x, x ≠ "エサ" →
        dgetD (feed_loop inv animals).1 x 0 =
          dgetD inv x 0 +
            ((animals.take (feed_loop inv animals).2.2).filter
               (fun a => decide (a.livestock_type.product = x))).length := by
  intro animals
  induction animals with
  | nil =>
    intro inv h0 hp
    refine ⟨by simp [feed_loop], by simp [feed_loop], by simp [feed_loop], ?_⟩
    intro x hx
    simp [feed_loop]
  | cons a rest ih =>
    intro inv h0 hp
    by_cases hz : dgetD inv "エサ" 0 ≤ 0
    · have hz0 : dgetD inv "エサ" 0 = 0 := le_antisymm hz h0
      refine ⟨?_, ?_, ?_, ?_⟩ <;> simp [feed_loop, hz, hz0]
    · have hpa : a.livestock_type.product ≠ "エサ" := hp a (List.mem_cons_self a rest)
      have hpr : ∀ b ∈ rest, b.livestock_type.product ≠ "エサ" :=
        fun b hb => hp b (List.mem_cons_of_mem a hb)
      simp only [feed_loop, if_neg hz, Livestock.feed]
      set inv1 := dset inv a.livestock_type.product (dgetD inv a.livestock_type.product 0 + 1)
        with hinv1
      set inv2 := dset inv1 "エサ" (dgetD inv1 "エサ" 0 - 1) with hinv2
      have hst1 : dgetD inv1 "エサ" 0 = dgetD inv "エサ" 0 := by
        rw [hinv1]
        exact dgetD_dset_ne inv a.livestock_type.product "エサ" _ 0 (Ne.symm hpa)
      have hst2 : dgetD inv2 "エサ" 0 = dgetD inv "エサ" 0 - 1 := by
        rw [hinv2, dgetD_dset_self, hst1]
      have h0b : 0 ≤ dgetD inv2 "エサ" 0 := by omega
      obtain ⟨ihc, ihs, ihl, ihx⟩ := ih inv2 h0b hpr
      refine ⟨?_, ?_, ?_, ?_⟩
      · simp only [List.length_cons]
        omega
      · rw [ihs, hst2]
        push_cast
        ring
      · rw [List.take_succ_cons, List.drop_succ_cons, List.map_cons, List.cons_append, ihl]
      · intro x hx
        have hx2 : dgetD inv2 x 0 = dgetD inv1 x 0 := by
          rw [hinv2]
          exact dgetD_dset_ne inv1 "エサ" x _ 0 hx
        rw [List.take_succ_cons, List.filter_cons]
        by_cases hxp : a.livestock_type.product = x
        · have hx1 : dgetD inv1 x 0 = dgetD inv x 0 + 1 := by
            rw [hinv1, ← hxp]
            exact dgetD_dset_self inv a.livestock_type.product _ 0
          rw [ihx x hx, hx2, hx1]
          simp [hxp]
          omega
        · have hx1 : dgetD inv1 x 0 = dgetD inv x 0 := by
            rw [hinv1]
            exact dgetD_dset_ne inv a.livestock_type.product x _ 0 (Ne.symm hxp)
          rw [ihx x hx, hx2, hx1]
          simp [hxp]

theorem feed_animals_spec (s : GameState)
    (h0 : 0 ≤ dgetD s.inventory "エサ" 0)
    (hp : ∀ a ∈ s.livestock, a.livestock_type.product ≠ "エサ") :
    (feed_loop s.inventory s.livestock).2.2 =
      min (dgetD s.inventory "エサ" 0).toNat s.livestock.length ∧
    dgetD (feed_animals s).inventory "エサ" 0 =
      dgetD s.inventory "エサ" 0 -
        ↑(min (dgetD s.inventory "エサ" 0).toNat s.livestock.length) ∧
    0 ≤ dgetD (feed_animals s).inventory "エサ" 0 ∧
    (feed_animals s).livestock =
      (s.livestock.take (min (dgetD s.inventory "エサ" 0).toNat s.livestock.length)).map
          (fun a => { a with hunger := 0 }) ++
        s.livestock.drop (min (dgetD s.inventory "エサ" 0).toNat s.livestock.length) ∧
    ∀ x, x ≠ "エサ" →
      dgetD (feed_animals s).inventory x 0 =
        dgetD s.inventory x 0 +
          ((s.livestock.take
              (min (dgetD s.inventory "エサ" 0).toNat s.livestock.length)).filter
             (fun a => decide (a.livestock_type.product = x))).length := by
  obtain ⟨hc, hs2, hl, hx⟩ := feed_loop_spec s.livestock s.inventory h0 hp
  by_cases hz : dgetD s.inventory "エサ" 0 ≤ 0
  · have hz0 : dgetD s.inventory "エサ" 0 = 0 := le_antisymm hz h0
    have hmin : min (dgetD s.inventory "エサ" 0).toNat s.livestock.length = 0 := by
      simp [hz0]
    have hfa : feed_animals s = s := by
      simp [feed_animals, hz]
    rw [hfa, hmin]
    exact ⟨by rw [hc, hmin], by simp [hz0], by omega, by simp, fun x hx2 => by simp⟩
  · have hfa1 : (feed_animals s).inventory = (feed_loop s.inventory s.livestock).1 := by
      simp [feed_animals, hz]
    have hfa2 : (feed_animals s).livestock = (feed_loop s.inventory s.livestock).2.1 := by
      simp [feed_animals, hz]
    rw [hfa1, hfa2, ← hc]
    exact ⟨rfl, hs2, by omega, hl, hx⟩

/-- C3: feed_animals walks the livestock in declaration order, feeds a
prefix of exactly min(initial feed stock, unit count) units, consumes one
feed per fed unit (never going negative), and credits each fed unit's
product by exactly 1. -/
theorem C3_feed_animals (s : GameState)
    (h0 : 0 ≤ dgetD s.inventory "エサ" 0)
    (hp : ∀ a ∈ s.livestock, a.livestock_type.product ≠ "エサ") :
    (feed_loop s.inventory s.livestock).2.2 =
      min (dgetD s.inventory "エサ" 0).toNat s.livestock.length ∧
    dgetD (feed_animals s).inventory "エサ" 0 =
      dgetD s.inventory "エサ" 0 -
        ↑(min (dgetD s.inventory "エサ" 0).toNat s.livestock.length) ∧
    0 ≤ dgetD (feed_animals s).inventory "エサ" 0 ∧
    (feed_animals s).livestock =
      (s.livestock.take (min (dgetD s.inventory "エサ" 0).toNat s.livestock.length)).map
          (fun a => { a with hunger := 0 }) ++
        s.livestock.drop (min (dgetD s.inventory "エサ" 0).toNat s.livestock.length) ∧
    ∀ x, x ≠ "エサ" →
      dgetD (feed_animals s).inventory x 0 =
        dgetD s.inventory x 0 +
          ((s.livestock.take
              (min (dgetD s.inventory "エサ" 0).toNat s.livestock.length)).filter
             (fun a => decide (a.livestock_type.product = x))).length :=
  feed_animals_spec s h0 hp

theorem C3_feed_animals_witness :
    dgetD (feed_animals init_state).inventory "エサ" 0 =
      dgetD init_state.inventory "エサ" 0 -
        ↑(min (dgetD init_state.inventory "エサ" 0).toNat init_state.livestock.length) :=
  (C3_feed_animals init_state (by decide) (by decide)).2.1

theorem filter_map_hunger_len (l : List Livestock) (x : String) :
    ((l.map (fun a => { a with hunger := 0 })).filter
        (fun a => decide (a.livestock_type.product = x))).length =
      (l.filter (fun a => decide (a.livestock_type.product = x))).length := by
  induction l with
  | nil => rfl
  | cons a rest ih =>
    by_cases h : a.livestock_type.product = x <;> simp [List.filter_cons, h, ih]

/-- C10: the feeding loop never looks at hunger; a unit whose hunger is
already 0 still consumes one feed and yields one product, so feeding twice
in the same day with enough stock feeds every unit both times, consuming
feed and crediting products twice over. -/
theorem C10_feed_ignores_hunger (s : GameState)
    (hp : ∀ a ∈ s.livestock, a.livestock_type.product ≠ "エサ")
    (hstock : 2 * (s.livestock.length : Int) ≤ dgetD s.inventory "エサ" 0) :
    (∀ a ∈ (feed_animals s).livestock, a.hunger = 0) ∧
    (feed_loop (feed_animals s).inventory (feed_animals s).livestock).2.2 =
      s.livestock.length ∧
    dgetD (feed_animals (feed_animals s)).inventory "エサ" 0 =
      dgetD s.inventory "エサ" 0 - 2 * (s.livestock.length : Int) ∧
    ∀ x, x ≠ "エサ" →
      dgetD (feed_animals (feed_animals s)).inventory x 0 =
        dgetD s.inventory x 0 +
          2 * (s.livestock.filter (fun a => decide (a.livestock_type.product = x))).length := by
  have h0 : 0 ≤ dgetD s.inventory "エサ" 0 := by omega
  obtain ⟨hc1, hs1, hnn1, hl1, hx1⟩ := feed_animals_spec s h0 hp
  have hmin1 : min (dgetD s.inventory "エサ" 0).toNat s.livestock.length =
      s.livestock.length := by omega
  rw [hmin1, List.take_length, List.drop_length, List.append_nil] at hl1
  rw [hmin1] at hs1
  have hx1b : ∀ x, x ≠ "エサ" →
      dgetD (feed_animals s).inventory x 0 =
        dgetD s.inventory x 0 +
          ((s.livestock.filter (fun a => decide (a.livestock_type.product = x))).length) := by
    intro x hx
    have := hx1 x hx
    rwa [hmin1, List.take_length] at this
  have hp1 : ∀ a ∈ (feed_animals s).livestock, a.livestock_type.product ≠ "エサ" := by
    rw [hl1]
    intro a ha
    obtain ⟨b, hb, rfl⟩ := List.mem_map.mp ha
    exact hp b hb
  have hlen1 : (feed_animals s).livestock.length = s.livestock.length := by
    rw [hl1, List.length_map]
  obtain ⟨hc2, hs2, hnn2, hl2, hx2⟩ := feed_animals_spec (feed_animals s) hnn1 hp1
  have hmin2 : min (dgetD (feed_animals s).inventory "エサ" 0).toNat
      (feed_animals s).livestock.length = s.livestock.length := by
    rw [hlen1]
    omega
  refine ⟨?_, ?_, ?_, ?_⟩
  · rw [hl1]
    intro a ha
    obtain ⟨b, hb, rfl⟩ := List.mem_map.mp ha
    rfl
  · rw [hc2, hmin2]
  · rw [hs2, hmin2, hs1]
    ring
  · intro x hx
    have h2 := hx2 x hx
    rw [hmin2, ← hlen1, List.take_length, hl1, filter_map_hunger_len] at h2
    rw [h2, hx1b x hx]
    ring

theorem C10_feed_ignores_hunger_witness :
    dgetD (feed_animals (feed_animals init_state)).inventory "エサ" 0 =
      dgetD init_state.inventory "エサ" 0 - 2 * (init_state.livestock.length : Int) :=
  (C10_feed_ignores_hunger init_state (by decide) (by decide)).2.2.1

theorem feed_animals_frame (s : GameState) :
    (feed_animals s).day = s.day ∧ (feed_animals s).day_limit = s.day_limit ∧
    (feed_animals s).actions_per_day = s.actions_per_day ∧
    (feed_animals s).player_pos = s.player_pos := by
  unfold feed_animals
  split <;> simp

theorem interact_frame (s : GameState) (c : Fin 3) :
    (interact s c).day = s.day ∧ (interact s c).day_limit = s.day_limit ∧
    (interact s c).actions_per_day = s.actions_per_day ∧
    (interact s c).player_pos = s.player_pos := by
  unfold interact
  cases hdg : dget s.fields s.player_pos with
  | none =>
    obtain ⟨f1, f2, f3, f4⟩ := feed_animals_frame s
    by_cases hb : s.player_pos = BARN_POSITION
    · simp [hb, f1, f2, f3, f4]
    · simp [hb]
  | some plot =>
    cases hc : plot.crop with
    | none => simp [hc]
    | some cr =>
      by_cases hr : plot.is_ready s.day
      · cases hh : harvest s.inventory plot <;> simp [hc, hr, hh]
      · simp [hc, hr]

theorem do_action_frame (s : GameState) (al : Int) (a : PlayerAction) :
    (do_action s al a).1.day = s.day ∧ (do_action s al a).1.day_limit = s.day_limit ∧
    (do_action s al a).1.actions_per_day = s.actions_per_day := by
  cases a with
  | move d => exact ⟨rfl, rfl, rfl⟩
  | interact c =>
    obtain ⟨f1, f2, f3, f4⟩ := interact_frame s c
    exact ⟨f1, f2, f3⟩
  | status => exact ⟨rfl, rfl, rfl⟩
  | endActions => exact ⟨rfl, rfl, rfl⟩

theorem runDayActions_dayOver_frame :
    ∀ (acts : List PlayerAction) (s : GameState) (al : Int) (s2 : GameState)
      (rest : List PlayerAction),
      runDayActions s al acts = .dayOver s2 rest →
      s2.day = s.day ∧ s2.day_limit = s.day_limit ∧
        s2.actions_per_day = s.actions_per_day := by
  intro acts
  induction acts with
  | nil =>
    intro s al s2 rest h
    unfold runDayActions at h
    split at h
    · simp only [DayRes.dayOver.injEq] at h
      obtain ⟨rfl, rfl⟩ := h
      exact ⟨rfl, rfl, rfl⟩
    · simp at h
  | cons a rest2 ih =>
    intro s al s2 rest h
    unfold runDayActions at h
    split at h
    · simp only [DayRes.dayOver.injEq] at h
      obtain ⟨rfl, rfl⟩ := h
      exact ⟨rfl, rfl, rfl⟩
    · split at h
      · simp at h
      · obtain ⟨d1, d2, d3⟩ := ih (do_action s al a).1 (do_action s al a).2 s2 rest h
        obtain ⟨e1, e2, e3⟩ := do_action_frame s al a
        exact ⟨d1.trans e1, d2.trans e2, d3.trans e3⟩

theorem runMain_failure_day :
    ∀ (fuel : Nat) (s : GameState) (script : List PlayerAction) (sf : GameState),
      s.day ≤ s.day_limit + 1 →
      runMain fuel s script = .failure sf →
      sf.day = s.day_limit + 1 ∧ sf.goal_met = false := by
  intro fuel
  induction fuel with
  | zero =>
    intro s script sf hle h
    simp [runMain] at h
  | succ n ih =>
    intro s script sf hle h
    unfold runMain at h
    by_cases hd : s.day ≤ s.day_limit
    · rw [if_pos hd] at h
      cases hr : runDayActions s s.actions_per_day script with
      | succeeded s2 r2 => rw [hr] at h; simp at h
      | blocked s2 => rw [hr] at h; simp at h
      | dayOver s2 r2 =>
        rw [hr] at h
        obtain ⟨d1, d2, d3⟩ :=
          runDayActions_dayOver_frame script s s.actions_per_day s2 r2 hr
        have he1 : (end_day s2).day = s2.day + 1 := rfl
        have he2 : (end_day s2).day_limit = s2.day_limit := rfl
        have hle2 : (end_day s2).day ≤ (end_day s2).day_limit + 1 := by
          rw [he1, he2]
          omega
        obtain ⟨hres1, hres2⟩ := ih (end_day s2) r2 sf hle2 h
        rw [he2, d2] at hres1
        exact ⟨hres1, hres2⟩
    · rw [if_neg hd] at h
      by_cases hg : s.goal_met = true
      · rw [if_pos hg] at h
        simp at h
      · rw [if_neg hg] at h
        simp only [GameRes.failure.injEq] at h
        subst h
        simp only [Bool.not_eq_true] at hg
        exact ⟨by omega, hg⟩

/-- C8: the goal is checked after every action, and the moment it is met the
run returns success mid-day, taking priority over day-limit expiry; a run
that ends in failure does so with the day counter exactly one past the day
limit (after the last end_day) and the goal unmet, so no extra day is ever
attempted. -/
theorem C8_termination :
    (∀ (s : GameState) (al : Int) (a : PlayerAction) (rest : List PlayerAction),
        0 < al → (do_action s al a).1.goal_met = true →
        runDayActions s al (a :: rest) = .succeeded (do_action s al a).1 rest) ∧
    (∀ (fuel : Nat) (s : GameState) (script : List PlayerAction) (s2 : GameState)
        (rest : List PlayerAction),
        s.day ≤ s.day_limit →
        runDayActions s s.actions_per_day script = .succeeded s2 rest →
        runMain (fuel + 1) s script = .successMid s2) ∧
    (∀ (fuel : Nat) (s : GameState) (script : List PlayerAction) (sf : GameState),
        s.day ≤ s.day_limit + 1 →
        runMain fuel s script = .failure sf →
        sf.day = s.day_limit + 1 ∧ sf.goal_met = false) := by
  refine ⟨?_, ?_, runMain_failure_day⟩
  · intro s al a rest hal hg
    unfold runDayActions
    rw [if_neg (by omega), if_pos hg]
  · intro fuel s script s2 rest hd hr
    unfold runMain
    rw [if_pos hd, hr]

/-- A script of ten end-the-day choices: the goal is never met. -/
def scriptC8 : List PlayerAction := List.replicate 10 .endActions

/-- The state in which that run terminates: day 11, every unit hungry for
ten days, everything else as at the start. -/
def sFinalC8 : GameState :=
  { init_state with
    day := 11
    livestock :=
      [{ livestock_type := { name := "ニワトリ", product := "たまご" }, hunger := 10 },
       { livestock_type := { name := "ニワトリ", product := "たまご" }, hunger := 10 },
       { livestock_type := { name := "ウシ", product := "ミルク" }, hunger := 10 }] }

theorem C8_termination_witness :
    sFinalC8.day = init_state.day_limit + 1 ∧ sFinalC8.goal_met = false :=
  C8_termination.2.2 11 init_state scriptC8 sFinalC8 (by decide) (by decide)
